import Mathlib

/-
Verification of the parameter-reconciliation core of
src/components/features/contentful-utility/useContentfulUtility.ts.

The store (zustand, session-persisted) is modelled as an explicit record,
the incoming router query as an association list of string key/value pairs
with distinct keys (a JS object cannot hold a duplicate key), and the
useEffect body as a pure state-transition function `reconcile`.  The
client-gating tail of the hook (lines 99-126) is modelled as
`ClientGate.decide`.  JavaScript string truthiness (`!x` / `if (x)`) is
modelled by `truthy` / `truthyOpt`: a string is truthy iff it is nonempty,
and an absent (`undefined`) value is falsy.
-/

set_option autoImplicit false

/-- Modelled from the spec: the parameter-name constants are imported from
constants.ts, which is not part of the repository snapshot.  Section 3 of
the spec fixes the classification: the required-guest parameters are
space_id and delivery_token. -/
def guestSpaceRequiredParameters : List String := ["space_id", "delivery_token"]

/-- Modelled from the spec: the optional-guest parameter is preview_token
(constants.ts is not in the snapshot). -/
def guestSpaceOptionalParameters : List String := ["preview_token"]

/-- Modelled from the spec: the editorial parameters are preview and xray
(constants.ts is not in the snapshot). -/
def editorialParameters : List String := ["preview", "xray"]

/-- Modelled from the spec: the designated reset-signal parameter name
(constants.ts is not in the snapshot; the spec's scenario uses reset). -/
def resetParam : String := "reset"

/-- JavaScript truthiness of a string: truthy iff nonempty. -/
def truthy (s : String) : Bool := s != ""

/-- JavaScript truthiness of a possibly-undefined string value. -/
def truthyOpt : Option String → Bool
  | none => false
  | some s => truthy s

/-- Lookup in an association list, modelling property access obj[k] on a
plain JS object built from these entries (first match; keys are unique). -/
def lookupL (l : List (String × String)) (k : String) : Option String :=
  (l.find? (fun e => e.1 == k)).map Prod.snd

/-- The router query: a mapping of parameter names to string values,
modelled as an entry list in object order with pairwise-distinct keys. -/
structure Query where
  entries : List (String × String)
  nodupKeys : (entries.map Prod.fst).Nodup

/-- Property access query[k]. -/
def lookupQ (q : Query) (k : String) : Option String :=
  lookupL q.entries k

/-- The persisted ContentfulUtilityStore record (interface of lines 16-23):
xray and preview are booleans, the remaining fields optional strings. -/
structure ContentfulUtilityStore where
  xray : Bool
  preview : Bool
  domain : Option String
  delivery_token : Option String
  preview_token : Option String
  space_id : Option String
  deriving Repr, DecidableEq

/-- The seed state of the store (lines 27-31): preview=false, xray=false,
domain="contentful.com", guest fields absent. -/
def initialStore : ContentfulUtilityStore :=
  { xray := false
    preview := false
    domain := some "contentful.com"
    delivery_token := none
    preview_token := none
    space_id := none }

/-- The union of all recognized parameter names (lines 53-57, a JS Set). -/
def allParams : List String :=
  guestSpaceRequiredParameters ++ guestSpaceOptionalParameters ++ editorialParameters

/-- setState with a computed editorial key: setState({[key]: b}) where key
is preview or xray. -/
def setEditorial (st : ContentfulUtilityStore) (k : String) (b : Bool) :
    ContentfulUtilityStore :=
  if k = "preview" then { st with preview := b }
  else if k = "xray" then { st with xray := b }
  else st

/-- setState with a computed guest key: setState({[key]: v}) where key is
space_id, delivery_token or preview_token, and v may be undefined (none). -/
def setGuest (st : ContentfulUtilityStore) (k : String) (v : Option String) :
    ContentfulUtilityStore :=
  if k = "space_id" then { st with space_id := v }
  else if k = "delivery_token" then { st with delivery_token := v }
  else if k = "preview_token" then { st with preview_token := v }
  else st

/-- Filtering of the query object down to recognized parameters
(lines 60-62, Object.fromEntries over a filter). -/
def filterQuery (query : Query) : List (String × String) :=
  query.entries.filter (fun e => allParams.contains e.1)

/-- One iteration of the forEach over the filtered entries (lines 64-96):
editorial keys coerce the literals "true"/"false", guest keys are guarded
by the reset re-check, the all-required-present check and the
optional-parameter pruning check. -/
def applyEntry (query : Query) (filteredQuery : List (String × String))
    (st : ContentfulUtilityStore) (e : String × String) : ContentfulUtilityStore :=
  if e.1 = "preview" ∨ e.1 = "xray" then
    let st1 := if e.2 = "true" then setEditorial st e.1 true else st
    let st2 := if e.2 = "false" then setEditorial st1 e.1 false else st1
    st2
  else if truthyOpt (lookupQ query resetParam) then st
  else if guestSpaceRequiredParameters.any (fun rk => ! truthyOpt (lookupL filteredQuery rk)) then st
  else if guestSpaceOptionalParameters.contains e.1 && ! truthyOpt (lookupQ query e.1) then
    setGuest st e.1 none
  else
    setGuest st e.1 (some e.2)

/-- The reconciliation pass: the useEffect body (lines 42-97).  A truthy
reset parameter clears every guest field and returns early; otherwise each
recognized entry of the query is applied in order. -/
def reconcile (query : Query) (st : ContentfulUtilityStore) : ContentfulUtilityStore :=
  if truthyOpt (lookupQ query resetParam) then
    (guestSpaceRequiredParameters ++ guestSpaceOptionalParameters).foldl
      (fun s k => setGuest s k none) st
  else
    (filterQuery query).foldl (applyEntry query (filterQuery query)) st

/-- JS template-literal interpolation of a possibly-undefined string. -/
def jsStr : Option String → String
  | none => "undefined"
  | some s => s

/-- Constructor arguments of the GraphQLClient built at lines 113-121. -/
structure GraphQLClientArgs where
  url : String
  contentType : String
  authorization : String
  deriving Repr, DecidableEq

/-- The record returned to the UI layer: editorial toggles plus the client
handle (none models the null client). -/
structure UtilityOutput where
  preview : Bool
  xray : Bool
  client : Option GraphQLClientArgs
  deriving Repr, DecidableEq

/-- Dynamic guest-field access store[key] used by the gate (line 105). -/
def storeGuest (st : ContentfulUtilityStore) (k : String) : Option String :=
  if k = "space_id" then st.space_id
  else if k = "delivery_token" then st.delivery_token
  else if k = "preview_token" then st.preview_token
  else none

namespace ClientGate

/-- The client-gating tail of the hook (lines 99-126): if some required
guest field is falsy in the store, or the reset parameter is truthy in the
query, the client is null; otherwise the GraphQLClient is constructed from
the store snapshot. -/
def decide (query : Query) (st : ContentfulUtilityStore) : UtilityOutput :=
  if guestSpaceRequiredParameters.any (fun k => ! truthyOpt (storeGuest st k))
      || truthyOpt (lookupQ query resetParam) then
    { preview := st.preview, xray := st.xray, client := none }
  else
    { preview := st.preview
      xray := st.xray
      client := some
        { url := "https://graphql." ++ jsStr st.domain ++ "/content/v1/spaces/"
            ++ jsStr st.space_id ++ "/"
          contentType := "application/json"
          authorization := "Bearer " ++
            jsStr (if st.preview then st.preview_token else st.delivery_token) } }

end ClientGate

/-- The whole hook on one parameter-change event: reconcile, then gate the
client on the reconciled snapshot. -/
def useContentfulUtility (query : Query) (st : ContentfulUtilityStore) :
    UtilityOutput × ContentfulUtilityStore :=
  (ClientGate.decide query (reconcile query st), reconcile query st)

/-- Editorial-field access store[k] for k = preview or xray. -/
def editorialField (st : ContentfulUtilityStore) (k : String) : Bool :=
  if k = "preview" then st.preview else st.xray

/-! Helper definitions for the proofs: per-field step functions that the
store-level fold projects onto, and concrete inputs used by witnesses and
counterexamples. -/

/-- Effect of one editorial entry value on a boolean field (the pair of
ifs at lines 68-69, the false-check running second). -/
def edApply (b : Bool) (v : String) : Bool :=
  if v = "false" then false else if v = "true" then true else b

/-- Projection of applyEntry onto the editorial field named tk. -/
def edStep (tk : String) (b : Bool) (e : String × String) : Bool :=
  if e.1 = tk then edApply b e.2 else b

/-- Projection of applyEntry onto the guest field named tk. -/
def guestStep (tk : String) (q : Query) (fq : List (String × String))
    (o : Option String) (e : String × String) : Option String :=
  if e.1 = "preview" ∨ e.1 = "xray" then o
  else if truthyOpt (lookupQ q resetParam) then o
  else if guestSpaceRequiredParameters.any (fun rk => ! truthyOpt (lookupL fq rk)) then o
  else if guestSpaceOptionalParameters.contains e.1 && ! truthyOpt (lookupQ q e.1) then
    (if e.1 = tk then none else o)
  else (if e.1 = tk then some e.2 else o)

/-- A self-map that is constant or the identity; every per-field step of a
reconciliation pass is of this shape. -/
def ConstOrId {α : Type} (f : α → α) : Prop :=
  (∀ x y, f x = f y) ∨ (∀ x, f x = x)

/-- Keys that the reconciliation pass ever reads: the recognized parameter
names together with the reset signal. -/
def recognizedOrReset (k : String) : Bool :=
  allParams.contains k || k == resetParam

/-- The query with every entry the pass never reads removed. -/
def restrictQuery (q : Query) : Query :=
  ⟨q.entries.filter (fun e => recognizedOrReset e.1),
   q.nodupKeys.sublist ((q.entries.filter_sublist).map Prod.fst)⟩


/-! Concrete inputs used by the witnesses and counterexamples. -/

/-- A query whose reset parameter is present but maps to the empty string. -/
def cexResetQuery : Query := ⟨[("reset", "")], by decide⟩

/-- A store with a fully populated guest session. -/
def cexResetStore : ContentfulUtilityStore :=
  { xray := false, preview := false, domain := some "contentful.com",
    delivery_token := some "tok", preview_token := none, space_id := some "abc" }

/-- A query supplying both required parameters and omitting preview_token. -/
def staleQuery : Query := ⟨[("space_id", "a"), ("delivery_token", "b")], by decide⟩

/-- A store holding a previously persisted preview_token. -/
def staleStore : ContentfulUtilityStore :=
  { xray := false, preview := false, domain := some "contentful.com",
    delivery_token := some "b", preview_token := some "x", space_id := some "a" }

/-- A query whose reset parameter maps to the empty string, for the gate. -/
def gateCexQuery : Query := ⟨[("reset", "")], by decide⟩

/-- A store with truthy required-guest fields, for the gate. -/
def gateCexStore : ContentfulUtilityStore :=
  { xray := false, preview := false, domain := some "contentful.com",
    delivery_token := some "dt", preview_token := none, space_id := some "sp" }

/-- A query with a truthy reset value. -/
def wResetQuery : Query := ⟨[("reset", "1")], by decide⟩

/-- A populated store used by the reset witness. -/
def wResetStore : ContentfulUtilityStore :=
  { xray := true, preview := true, domain := some "contentful.com",
    delivery_token := some "d2", preview_token := some "p2", space_id := some "s2" }

/-- A query supplying exactly one required-guest parameter. -/
def wSingleQuery : Query := ⟨[("space_id", "solo")], by decide⟩

/-- A store with both required-guest fields already set. -/
def wSingleStore : ContentfulUtilityStore :=
  { xray := false, preview := false, domain := some "contentful.com",
    delivery_token := some "d0", preview_token := none, space_id := some "s0" }

/-- The empty query. -/
def wGateQuery : Query := ⟨[], by decide⟩

/-- A complete store in preview mode, for the gate witness. -/
def wGateStore : ContentfulUtilityStore :=
  { xray := true, preview := true, domain := some "contentful.com",
    delivery_token := some "dt", preview_token := some "pt", space_id := some "sp" }

/-- A query setting the preview editorial parameter to "true". -/
def wEdQuery : Query := ⟨[("preview", "true")], by decide⟩

/-- A query whose space_id parameter is present but empty. -/
def wEmptyReqQuery : Query :=
  ⟨[("space_id", ""), ("delivery_token", "b"), ("preview_token", "z")], by decide⟩

/-- A populated store used by the empty-required-value witness. -/
def wEmptyReqStore : ContentfulUtilityStore :=
  { xray := false, preview := false, domain := some "contentful.com",
    delivery_token := some "d1", preview_token := some "p1", space_id := some "s1" }

/-! Generic fold lemmas. -/

theorem foldl_proj {σ α β : Type} (f : σ → β → σ) (g : α → β → α) (π : σ → α)
    (h : ∀ st e, π (f st e) = g (π st) e) :
    ∀ (l : List β) (st : σ), π (l.foldl f st) = l.foldl g (π st) := by
  intro l
  induction l with
  | nil => intro st; rfl
  | cons e t ih => intro st; simp only [List.foldl_cons, ih, h]

theorem foldl_id {α β : Type} (g : α → β → α) (l : List β)
    (h : ∀ e ∈ l, ∀ a, g a e = a) (a : α) : l.foldl g a = a := by
  induction l with
  | nil => rfl
  | cons e t ih =>
    simp only [List.foldl_cons, h e (List.mem_cons_self e t)]
    exact ih (fun x hx b => h x (List.mem_cons_of_mem e hx) b)

theorem constOrId_foldl {α β : Type} (g : α → β → α) (l : List β)
    (h : ∀ e ∈ l, ConstOrId (fun a => g a e)) :
    ConstOrId (fun a => l.foldl g a) := by
  induction l with
  | nil => exact Or.inr (fun x => rfl)
  | cons e t ih =>
    have ht := ih (fun x hx => h x (List.mem_cons_of_mem e hx))
    rcases h e (List.mem_cons_self e t) with hc | hi
    · exact Or.inl (fun x y => by simp only [List.foldl_cons, hc x y])
    · rcases ht with htc | hti
      · exact Or.inl (fun x y => by simp only [List.foldl_cons]; exact htc _ _)
      · exact Or.inr (fun x => by simp only [List.foldl_cons, hi x]; exact hti x)

theorem ConstOrId.apply_apply {α : Type} {f : α → α} (h : ConstOrId f) (x : α) :
    f (f x) = f x := by
  rcases h with hc | hi
  · exact hc (f x) x
  · rw [hi (f x)]

/-! Projections of the two setState helpers. -/

theorem setEditorial_preview (st : ContentfulUtilityStore) (k : String) (b : Bool) :
    (setEditorial st k b).preview = if k = "preview" then b else st.preview := by
  unfold setEditorial
  by_cases h1 : k = "preview" <;> by_cases h2 : k = "xray" <;> simp_all

theorem setEditorial_xray (st : ContentfulUtilityStore) (k : String) (b : Bool) :
    (setEditorial st k b).xray = if k = "xray" then b else st.xray := by
  unfold setEditorial
  by_cases h1 : k = "preview" <;> by_cases h2 : k = "xray" <;> simp_all

theorem setEditorial_domain (st : ContentfulUtilityStore) (k : String) (b : Bool) :
    (setEditorial st k b).domain = st.domain := by
  unfold setEditorial
  by_cases h1 : k = "preview" <;> by_cases h2 : k = "xray" <;> simp_all

theorem setEditorial_space_id (st : ContentfulUtilityStore) (k : String) (b : Bool) :
    (setEditorial st k b).space_id = st.space_id := by
  unfold setEditorial
  by_cases h1 : k = "preview" <;> by_cases h2 : k = "xray" <;> simp_all

theorem setEditorial_delivery_token (st : ContentfulUtilityStore) (k : String) (b : Bool) :
    (setEditorial st k b).delivery_token = st.delivery_token := by
  unfold setEditorial
  by_cases h1 : k = "preview" <;> by_cases h2 : k = "xray" <;> simp_all

theorem setEditorial_preview_token (st : ContentfulUtilityStore) (k : String) (b : Bool) :
    (setEditorial st k b).preview_token = st.preview_token := by
  unfold setEditorial
  by_cases h1 : k = "preview" <;> by_cases h2 : k = "xray" <;> simp_all

theorem setGuest_space_id (st : ContentfulUtilityStore) (k : String) (v : Option String) :
    (setGuest st k v).space_id = if k = "space_id" then v else st.space_id := by
  unfold setGuest
  by_cases h1 : k = "space_id" <;> by_cases h2 : k = "delivery_token" <;>
    by_cases h3 : k = "preview_token" <;> simp_all

theorem setGuest_delivery_token (st : ContentfulUtilityStore) (k : String) (v : Option String) :
    (setGuest st k v).delivery_token = if k = "delivery_token" then v else st.delivery_token := by
  unfold setGuest
  by_cases h1 : k = "space_id" <;> by_cases h2 : k = "delivery_token" <;>
    by_cases h3 : k = "preview_token" <;> simp_all

theorem setGuest_preview_token (st : ContentfulUtilityStore) (k : String) (v : Option String) :
    (setGuest st k v).preview_token = if k = "preview_token" then v else st.preview_token := by
  unfold setGuest
  by_cases h1 : k = "space_id" <;> by_cases h2 : k = "delivery_token" <;>
    by_cases h3 : k = "preview_token" <;> simp_all

theorem setGuest_preview (st : ContentfulUtilityStore) (k : String) (v : Option String) :
    (setGuest st k v).preview = st.preview := by
  unfold setGuest
  by_cases h1 : k = "space_id" <;> by_cases h2 : k = "delivery_token" <;>
    by_cases h3 : k = "preview_token" <;> simp_all

theorem setGuest_xray (st : ContentfulUtilityStore) (k : String) (v : Option String) :
    (setGuest st k v).xray = st.xray := by
  unfold setGuest
  by_cases h1 : k = "space_id" <;> by_cases h2 : k = "delivery_token" <;>
    by_cases h3 : k = "preview_token" <;> simp_all

theorem setGuest_domain (st : ContentfulUtilityStore) (k : String) (v : Option String) :
    (setGuest st k v).domain = st.domain := by
  unfold setGuest
  by_cases h1 : k = "space_id" <;> by_cases h2 : k = "delivery_token" <;>
    by_cases h3 : k = "preview_token" <;> simp_all

/-! Per-field projections of applyEntry onto the step functions. -/

theorem applyEntry_preview (q : Query) (fq : List (String × String))
    (st : ContentfulUtilityStore) (e : String × String) :
    (applyEntry q fq st e).preview = edStep "preview" st.preview e := by
  unfold applyEntry edStep
  by_cases h1 : e.1 = "preview" ∨ e.1 = "xray"
  · by_cases h2 : e.2 = "true" <;> by_cases h3 : e.2 = "false" <;>
      rcases h1 with h | h <;> simp_all [edApply, setEditorial_preview]
  · have hp : ¬ e.1 = "preview" := fun hc => h1 (Or.inl hc)
    simp only [if_neg h1, if_neg hp]
    by_cases hr : truthyOpt (lookupQ q resetParam) = true
    · simp only [if_pos hr]
    · simp only [if_neg hr]
      by_cases hq : (guestSpaceRequiredParameters.any
          (fun rk => ! truthyOpt (lookupL fq rk))) = true
      · simp only [if_pos hq]
      · simp only [if_neg hq]
        by_cases ho : (guestSpaceOptionalParameters.contains e.1
            && ! truthyOpt (lookupQ q e.1)) = true
        · simp only [if_pos ho, setGuest_preview]
        · simp only [if_neg ho, setGuest_preview]

theorem applyEntry_xray (q : Query) (fq : List (String × String))
    (st : ContentfulUtilityStore) (e : String × String) :
    (applyEntry q fq st e).xray = edStep "xray" st.xray e := by
  unfold applyEntry edStep
  by_cases h1 : e.1 = "preview" ∨ e.1 = "xray"
  · by_cases h2 : e.2 = "true" <;> by_cases h3 : e.2 = "false" <;>
      rcases h1 with h | h <;> simp_all [edApply, setEditorial_xray]
  · have hx : ¬ e.1 = "xray" := fun hc => h1 (Or.inr hc)
    simp only [if_neg h1, if_neg hx]
    by_cases hr : truthyOpt (lookupQ q resetParam) = true
    · simp only [if_pos hr]
    · simp only [if_neg hr]
      by_cases hq : (guestSpaceRequiredParameters.any
          (fun rk => ! truthyOpt (lookupL fq rk))) = true
      · simp only [if_pos hq]
      · simp only [if_neg hq]
        by_cases ho : (guestSpaceOptionalParameters.contains e.1
            && ! truthyOpt (lookupQ q e.1)) = true
        · simp only [if_pos ho, setGuest_xray]
        · simp only [if_neg ho, setGuest_xray]

theorem applyEntry_domain (q : Query) (fq : List (String × String))
    (st : ContentfulUtilityStore) (e : String × String) :
    (applyEntry q fq st e).domain = st.domain := by
  unfold applyEntry
  by_cases h1 : e.1 = "preview" ∨ e.1 = "xray"
  · by_cases h2 : e.2 = "true" <;> by_cases h3 : e.2 = "false" <;>
      simp_all [setEditorial_domain]
  · simp only [if_neg h1]
    by_cases hr : truthyOpt (lookupQ q resetParam) = true
    · simp only [if_pos hr]
    · simp only [if_neg hr]
      by_cases hq : (guestSpaceRequiredParameters.any
          (fun rk => ! truthyOpt (lookupL fq rk))) = true
      · simp only [if_pos hq]
      · simp only [if_neg hq]
        by_cases ho : (guestSpaceOptionalParameters.contains e.1
            && ! truthyOpt (lookupQ q e.1)) = true
        · simp only [if_pos ho, setGuest_domain]
        · simp only [if_neg ho, setGuest_domain]

theorem applyEntry_space_id (q : Query) (fq : List (String × String))
    (st : ContentfulUtilityStore) (e : String × String) :
    (applyEntry q fq st e).space_id = guestStep "space_id" q fq st.space_id e := by
  unfold applyEntry guestStep
  by_cases h1 : e.1 = "preview" ∨ e.1 = "xray"
  · by_cases h2 : e.2 = "true" <;> by_cases h3 : e.2 = "false" <;>
      simp_all [setEditorial_space_id]
  · simp only [if_neg h1]
    by_cases hr : truthyOpt (lookupQ q resetParam) = true
    · simp only [if_pos hr]
    · simp only [if_neg hr]
      by_cases hq : (guestSpaceRequiredParameters.any
          (fun rk => ! truthyOpt (lookupL fq rk))) = true
      · simp only [if_pos hq]
      · simp only [if_neg hq]
        by_cases ho : (guestSpaceOptionalParameters.contains e.1
            && ! truthyOpt (lookupQ q e.1)) = true
        · simp only [if_pos ho, setGuest_space_id]
        · simp only [if_neg ho, setGuest_space_id]

theorem applyEntry_delivery_token (q : Query) (fq : List (String × String))
    (st : ContentfulUtilityStore) (e : String × String) :
    (applyEntry q fq st e).delivery_token
      = guestStep "delivery_token" q fq st.delivery_token e := by
  unfold applyEntry guestStep
  by_cases h1 : e.1 = "preview" ∨ e.1 = "xray"
  · by_cases h2 : e.2 = "true" <;> by_cases h3 : e.2 = "false" <;>
      simp_all [setEditorial_delivery_token]
  · simp only [if_neg h1]
    by_cases hr : truthyOpt (lookupQ q resetParam) = true
    · simp only [if_pos hr]
    · simp only [if_neg hr]
      by_cases hq : (guestSpaceRequiredParameters.any
          (fun rk => ! truthyOpt (lookupL fq rk))) = true
      · simp only [if_pos hq]
      · simp only [if_neg hq]
        by_cases ho : (guestSpaceOptionalParameters.contains e.1
            && ! truthyOpt (lookupQ q e.1)) = true
        · simp only [if_pos ho, setGuest_delivery_token]
        · simp only [if_neg ho, setGuest_delivery_token]

theorem applyEntry_preview_token (q : Query) (fq : List (String × String))
    (st : ContentfulUtilityStore) (e : String × String) :
    (applyEntry q fq st e).preview_token
      = guestStep "preview_token" q fq st.preview_token e := by
  unfold applyEntry guestStep
  by_cases h1 : e.1 = "preview" ∨ e.1 = "xray"
  · by_cases h2 : e.2 = "true" <;> by_cases h3 : e.2 = "false" <;>
      simp_all [setEditorial_preview_token]
  · simp only [if_neg h1]
    by_cases hr : truthyOpt (lookupQ q resetParam) = true
    · simp only [if_pos hr]
    · simp only [if_neg hr]
      by_cases hq : (guestSpaceRequiredParameters.any
          (fun rk => ! truthyOpt (lookupL fq rk))) = true
      · simp only [if_pos hq]
      · simp only [if_neg hq]
        by_cases ho : (guestSpaceOptionalParameters.contains e.1
            && ! truthyOpt (lookupQ q e.1)) = true
        · simp only [if_pos ho, setGuest_preview_token]
        · simp only [if_neg ho, setGuest_preview_token]

/-! Structure extensionality, lookup lemmas and step-function facts. -/

theorem store_ext {s t : ContentfulUtilityStore}
    (h1 : s.xray = t.xray) (h2 : s.preview = t.preview) (h3 : s.domain = t.domain)
    (h4 : s.delivery_token = t.delivery_token) (h5 : s.preview_token = t.preview_token)
    (h6 : s.space_id = t.space_id) : s = t := by
  cases s; cases t; simp_all

theorem lookupL_filter (l : List (String × String)) (p : String × String → Bool)
    (k : String) (h : ∀ e : String × String, e.1 = k → p e = true) :
    lookupL (l.filter p) k = lookupL l k := by
  induction l with
  | nil => rfl
  | cons a t ih =>
    by_cases hk : a.1 = k
    · have hpa : p a = true := h a hk
      have hbeq : (a.1 == k) = true := beq_iff_eq.mpr hk
      simp [lookupL, List.filter_cons, hpa, List.find?_cons_of_pos, hbeq]
    · have hbeq : (a.1 == k) = false := beq_eq_false_iff_ne.mpr hk
      cases hpa : p a with
      | true =>
        simp only [List.filter_cons, hpa, if_true]
        simp only [lookupL, List.find?_cons, hbeq] at ih ⊢
        exact ih
      | false =>
        simp only [List.filter_cons, hpa, Bool.false_eq_true, if_false]
        simp only [lookupL, List.find?_cons, hbeq] at ih ⊢
        exact ih

theorem lookupL_eq_of_mem (l : List (String × String))
    (hnd : (l.map Prod.fst).Nodup) {e : String × String} (he : e ∈ l) :
    lookupL l e.1 = some e.2 := by
  induction l with
  | nil => cases he
  | cons a t ih =>
    rcases List.mem_cons.mp he with rfl | ht
    · simp [lookupL, List.find?_cons_of_pos]
    · have hnodup := List.nodup_cons.mp hnd
      have hne : ¬ (a.1 = e.1) := by
        intro hc
        exact hnodup.1 (hc ▸ List.mem_map_of_mem Prod.fst ht)
      have hbeq : (a.1 == e.1) = false := beq_eq_false_iff_ne.mpr hne
      simp only [lookupL, List.find?_cons, hbeq]
      exact ih hnodup.2 ht

theorem filterQuery_nodupKeys (q : Query) :
    ((filterQuery q).map Prod.fst).Nodup :=
  q.nodupKeys.sublist ((q.entries.filter_sublist).map Prod.fst)

theorem lookupL_filterQuery (q : Query) (k : String)
    (h : allParams.contains k = true) :
    lookupL (filterQuery q) k = lookupQ q k :=
  lookupL_filter q.entries _ k (fun e he => by rw [he]; exact h)

theorem edStep_id (tk : String) (b : Bool) (e : String × String)
    (h : ¬ e.1 = tk) : edStep tk b e = b := by
  simp [edStep, h]

theorem edStep_constOrId (tk : String) (e : String × String) :
    ConstOrId (fun b => edStep tk b e) := by
  unfold ConstOrId edStep edApply
  by_cases h1 : e.1 = tk
  · simp only [if_pos h1]
    by_cases h2 : e.2 = "false"
    · exact Or.inl (fun x y => by simp [h2])
    · by_cases h3 : e.2 = "true"
      · exact Or.inl (fun x y => by simp [h2, h3])
      · exact Or.inr (fun x => by simp [h2, h3])
  · exact Or.inr (fun x => by simp only [if_neg h1])

theorem guestStep_constOrId (tk : String) (q : Query)
    (fq : List (String × String)) (e : String × String) :
    ConstOrId (fun o => guestStep tk q fq o e) := by
  unfold ConstOrId guestStep
  by_cases h1 : e.1 = "preview" ∨ e.1 = "xray"
  · exact Or.inr (fun x => by simp only [if_pos h1])
  · simp only [if_neg h1]
    by_cases hr : truthyOpt (lookupQ q resetParam) = true
    · exact Or.inr (fun x => by simp only [if_pos hr])
    · simp only [if_neg hr]
      by_cases hq : (guestSpaceRequiredParameters.any
          (fun rk => ! truthyOpt (lookupL fq rk))) = true
      · exact Or.inr (fun x => by simp only [if_pos hq])
      · simp only [if_neg hq]
        by_cases ho : (guestSpaceOptionalParameters.contains e.1
            && ! truthyOpt (lookupQ q e.1)) = true
        · simp only [if_pos ho]
          by_cases ht : e.1 = tk
          · exact Or.inl (fun x y => by simp [ht])
          · exact Or.inr (fun x => by simp [ht])
        · simp only [if_neg ho]
          by_cases ht : e.1 = tk
          · exact Or.inl (fun x y => by simp [ht])
          · exact Or.inr (fun x => by simp [ht])

theorem guestStep_id_of_reqMissing (tk : String) (q : Query)
    (fq : List (String × String)) (o : Option String) (e : String × String)
    (h : guestSpaceRequiredParameters.any (fun rk => ! truthyOpt (lookupL fq rk)) = true) :
    guestStep tk q fq o e = o := by
  unfold guestStep
  by_cases h1 : e.1 = "preview" ∨ e.1 = "xray"
  · simp only [if_pos h1]
  · simp only [if_neg h1]
    by_cases hr : truthyOpt (lookupQ q resetParam) = true
    · simp only [if_pos hr]
    · simp only [if_neg hr, if_pos h]

theorem foldl_edStep_char (tk : String) (l : List (String × String))
    (hnd : (l.map Prod.fst).Nodup) (b : Bool) :
    l.foldl (edStep tk) b = (lookupL l tk).elim b (fun v => edApply b v) := by
  induction l with
  | nil => rfl
  | cons a t ih =>
    have hnodup := List.nodup_cons.mp hnd
    by_cases hk : a.1 = tk
    · have hbeq : (a.1 == tk) = true := beq_iff_eq.mpr hk
      have hstep : edStep tk b a = edApply b a.2 := by simp [edStep, hk]
      have htk : ∀ e ∈ t, ¬ e.1 = tk := by
        intro e hmem hc
        apply hnodup.1
        rw [hk, ← hc]
        exact List.mem_map_of_mem Prod.fst hmem
      have hlk : lookupL (a :: t) tk = some a.2 := by
        simp [lookupL, List.find?_cons, hbeq]
      rw [List.foldl_cons, hstep, hlk]
      exact foldl_id _ _ (fun e hmem c => edStep_id tk c e (htk e hmem)) _
    · have hbeq : (a.1 == tk) = false := beq_eq_false_iff_ne.mpr hk
      have hlk : lookupL (a :: t) tk = lookupL t tk := by
        simp [lookupL, List.find?_cons, hbeq]
      rw [List.foldl_cons, edStep_id tk b a hk, hlk]
      exact ih hnodup.2

/-! Branch-level characterizations of the reconciliation pass. -/

theorem foldl_congr_mem {σ β : Type} (f g : σ → β → σ) (l : List β)
    (h : ∀ e ∈ l, ∀ s, f s e = g s e) : ∀ s : σ, l.foldl f s = l.foldl g s := by
  induction l with
  | nil => intro s; rfl
  | cons e t ih =>
    intro s
    rw [List.foldl_cons, List.foldl_cons, h e (List.mem_cons_self e t)]
    exact ih (fun x hx b => h x (List.mem_cons_of_mem e hx) b) _

theorem reconcile_reset (q : Query) (st : ContentfulUtilityStore)
    (h : truthyOpt (lookupQ q resetParam) = true) :
    reconcile q st
      = { st with space_id := none, delivery_token := none, preview_token := none } := by
  unfold reconcile
  rw [if_pos h]
  simp [guestSpaceRequiredParameters, guestSpaceOptionalParameters, setGuest]

theorem reconcile_domain (q : Query) (st : ContentfulUtilityStore) :
    (reconcile q st).domain = st.domain := by
  unfold reconcile
  by_cases h : truthyOpt (lookupQ q resetParam) = true
  · rw [if_pos h]
    simp [guestSpaceRequiredParameters, guestSpaceOptionalParameters, setGuest_domain]
  · rw [if_neg h]
    rw [foldl_proj (applyEntry q (filterQuery q)) (fun (a : Option String) _ => a)
      (fun s => s.domain) (fun s e => applyEntry_domain q (filterQuery q) s e)
      (filterQuery q) st]
    exact foldl_id _ _ (fun e _ a => rfl) _

theorem reconcile_noReset_preview (q : Query) (st : ContentfulUtilityStore)
    (hr : truthyOpt (lookupQ q resetParam) = false) :
    (reconcile q st).preview = (filterQuery q).foldl (edStep "preview") st.preview := by
  unfold reconcile
  rw [if_neg (by simp [hr])]
  exact foldl_proj (applyEntry q (filterQuery q)) (edStep "preview")
    (fun s => s.preview) (fun s e => applyEntry_preview q (filterQuery q) s e)
    (filterQuery q) st

theorem reconcile_noReset_xray (q : Query) (st : ContentfulUtilityStore)
    (hr : truthyOpt (lookupQ q resetParam) = false) :
    (reconcile q st).xray = (filterQuery q).foldl (edStep "xray") st.xray := by
  unfold reconcile
  rw [if_neg (by simp [hr])]
  exact foldl_proj (applyEntry q (filterQuery q)) (edStep "xray")
    (fun s => s.xray) (fun s e => applyEntry_xray q (filterQuery q) s e)
    (filterQuery q) st

theorem reconcile_noReset_space_id (q : Query) (st : ContentfulUtilityStore)
    (hr : truthyOpt (lookupQ q resetParam) = false) :
    (reconcile q st).space_id
      = (filterQuery q).foldl (guestStep "space_id" q (filterQuery q)) st.space_id := by
  unfold reconcile
  rw [if_neg (by simp [hr])]
  exact foldl_proj (applyEntry q (filterQuery q)) (guestStep "space_id" q (filterQuery q))
    (fun s => s.space_id) (fun s e => applyEntry_space_id q (filterQuery q) s e)
    (filterQuery q) st

theorem reconcile_noReset_delivery_token (q : Query) (st : ContentfulUtilityStore)
    (hr : truthyOpt (lookupQ q resetParam) = false) :
    (reconcile q st).delivery_token
      = (filterQuery q).foldl (guestStep "delivery_token" q (filterQuery q)) st.delivery_token := by
  unfold reconcile
  rw [if_neg (by simp [hr])]
  exact foldl_proj (applyEntry q (filterQuery q)) (guestStep "delivery_token" q (filterQuery q))
    (fun s => s.delivery_token) (fun s e => applyEntry_delivery_token q (filterQuery q) s e)
    (filterQuery q) st

theorem reconcile_noReset_preview_token (q : Query) (st : ContentfulUtilityStore)
    (hr : truthyOpt (lookupQ q resetParam) = false) :
    (reconcile q st).preview_token
      = (filterQuery q).foldl (guestStep "preview_token" q (filterQuery q)) st.preview_token := by
  unfold reconcile
  rw [if_neg (by simp [hr])]
  exact foldl_proj (applyEntry q (filterQuery q)) (guestStep "preview_token" q (filterQuery q))
    (fun s => s.preview_token) (fun s e => applyEntry_preview_token q (filterQuery q) s e)
    (filterQuery q) st

theorem decide_unavailable_of_space_id_none (q : Query) (st : ContentfulUtilityStore)
    (h : st.space_id = none) :
    ClientGate.decide q st = { preview := st.preview, xray := st.xray, client := none } := by
  unfold ClientGate.decide
  have hc : (guestSpaceRequiredParameters.any (fun k => ! truthyOpt (storeGuest st k))) = true := by
    simp [guestSpaceRequiredParameters, storeGuest, h, truthyOpt]
  simp [hc]

/-! Claim theorems. -/

/-- C1 counterexample: the claim as stated is false for a query in which
the reset parameter is present but maps to the empty string — the pass
leaves space_id set (it is not unset), and the Client Gate's decision on
the resulting state is not Unavailable: the client is non-null. -/
theorem reset_empty_value_ignored_cex :
    (reconcile cexResetQuery cexResetStore).space_id = some "abc" ∧
    (ClientGate.decide cexResetQuery
      (reconcile cexResetQuery cexResetStore)).client.isSome = true := by
  exact ⟨by decide, by decide⟩

/-- C1 (amended): for every query in which the reset parameter is present
with a non-empty (truthy) value, the reconciliation pass unsets space_id,
delivery_token and preview_token, leaves preview and xray unchanged, and
the Client Gate's decision on the resulting state is Unavailable (the
client is null). -/
theorem reset_truthy_clears_guest (q : Query) (s : ContentfulUtilityStore)
    (h : truthyOpt (lookupQ q resetParam) = true) :
    (reconcile q s).space_id = none ∧ (reconcile q s).delivery_token = none ∧
    (reconcile q s).preview_token = none ∧ (reconcile q s).preview = s.preview ∧
    (reconcile q s).xray = s.xray ∧
    ClientGate.decide q (reconcile q s)
      = { preview := s.preview, xray := s.xray, client := none } := by
  have hrec := reconcile_reset q s h
  rw [hrec]
  exact ⟨rfl, rfl, rfl, rfl, rfl, decide_unavailable_of_space_id_none q _ rfl⟩

/-- C1 witness: the amended reset claim at the concrete query reset=1 and a
fully populated store. -/
theorem reset_truthy_clears_guest_witness :
    (reconcile wResetQuery wResetStore).space_id = none ∧
    (reconcile wResetQuery wResetStore).delivery_token = none ∧
    (reconcile wResetQuery wResetStore).preview_token = none ∧
    (reconcile wResetQuery wResetStore).preview = wResetStore.preview ∧
    (reconcile wResetQuery wResetStore).xray = wResetStore.xray ∧
    ClientGate.decide wResetQuery (reconcile wResetQuery wResetStore)
      = { preview := wResetStore.preview, xray := wResetStore.xray, client := none } :=
  reset_truthy_clears_guest wResetQuery wResetStore (by decide)

/-- C2 (code-bug evidence): with preview_token persisted in the store and a
query that omits preview_token entirely (both required parameters supplied,
no reset), the pass leaves the stale preview_token in place — the per-entry
loop only visits keys present in the filtered query, so the claimed pruning
of a genuinely absent optional parameter never runs. -/
theorem absent_optional_param_left_stale :
    (reconcile staleQuery staleStore).preview_token = some "x" := by decide

/-- C3: a query without a truthy reset signal that contains exactly one of
the two required-guest parameters leaves both required-guest store fields
exactly as they were before the pass. -/
theorem single_required_param_is_ignored (q : Query) (st : ContentfulUtilityStore)
    (hr : truthyOpt (lookupQ q resetParam) = false)
    (h : (lookupQ q "space_id" ≠ none ∧ lookupQ q "delivery_token" = none) ∨
         (lookupQ q "delivery_token" ≠ none ∧ lookupQ q "space_id" = none)) :
    (reconcile q st).space_id = st.space_id ∧
    (reconcile q st).delivery_token = st.delivery_token := by
  have hmiss : (guestSpaceRequiredParameters.any
      (fun rk => ! truthyOpt (lookupL (filterQuery q) rk))) = true := by
    rcases h with ⟨_, hd⟩ | ⟨_, hs⟩
    · have hfd : lookupL (filterQuery q) "delivery_token" = none := by
        rw [lookupL_filterQuery q _ (by decide)]; exact hd
      simp [guestSpaceRequiredParameters, hfd, truthyOpt]
    · have hfs : lookupL (filterQuery q) "space_id" = none := by
        rw [lookupL_filterQuery q _ (by decide)]; exact hs
      simp [guestSpaceRequiredParameters, hfs, truthyOpt]
  constructor
  · rw [reconcile_noReset_space_id q st hr]
    exact foldl_id _ _ (fun e _ o => guestStep_id_of_reqMissing _ q _ o e hmiss) _
  · rw [reconcile_noReset_delivery_token q st hr]
    exact foldl_id _ _ (fun e _ o => guestStep_id_of_reqMissing _ q _ o e hmiss) _

/-- C3 witness: a query supplying only space_id over a store with both
required fields set. -/
theorem single_required_param_witness :
    (reconcile wSingleQuery wSingleStore).space_id = wSingleStore.space_id ∧
    (reconcile wSingleQuery wSingleStore).delivery_token = wSingleStore.delivery_token :=
  single_required_param_is_ignored wSingleQuery wSingleStore (by decide)
    (Or.inl ⟨by decide, by decide⟩)

/-- C4 counterexample: the claim's Unavailable clause is false as stated —
with both required-guest fields set and the reset parameter present but
mapping to the empty string, the gate still returns a non-null client. -/
theorem gate_reset_empty_value_available_cex :
    (ClientGate.decide gateCexQuery gateCexStore).client.isSome = true := by decide

/-- C4 (amended): when both required-guest fields hold non-empty values and
the reset parameter is not present with a non-empty value, the gate returns
Available with the endpoint URL built from the state's domain and space_id
and the credential chosen by the preview flag; when a required-guest field
is unset or empty, or the reset parameter is present with a non-empty
value, it returns Unavailable carrying only preview and xray with a null
client. -/
theorem clientGate_decision (q : Query) (st : ContentfulUtilityStore)
    (sid dt dom : String) :
    (st.space_id = some sid → sid ≠ "" → st.delivery_token = some dt → dt ≠ "" →
      st.domain = some dom → truthyOpt (lookupQ q resetParam) = false →
      ClientGate.decide q st =
        { preview := st.preview, xray := st.xray,
          client := some
            { url := "https://graphql." ++ dom ++ "/content/v1/spaces/" ++ sid ++ "/",
              contentType := "application/json",
              authorization := "Bearer " ++
                jsStr (if st.preview then st.preview_token else st.delivery_token) } }) ∧
    ((truthyOpt st.space_id = false ∨ truthyOpt st.delivery_token = false ∨
        truthyOpt (lookupQ q resetParam) = true) →
      ClientGate.decide q st = { preview := st.preview, xray := st.xray, client := none }) := by
  constructor
  · intro h1 h2 h3 h4 h5 h6
    unfold ClientGate.decide
    have ha : (guestSpaceRequiredParameters.any (fun k => ! truthyOpt (storeGuest st k))) = false := by
      simp [guestSpaceRequiredParameters, storeGuest, h1, h3, truthyOpt, truthy,
        bne_iff_ne, h2, h4]
    have hc : (guestSpaceRequiredParameters.any (fun k => ! truthyOpt (storeGuest st k))
        || truthyOpt (lookupQ q resetParam)) = false := by
      rw [ha, h6]
      rfl
    rw [if_neg (by simp [hc])]
    rw [h1, h5]
    rfl
  · intro h
    unfold ClientGate.decide
    have hc : (guestSpaceRequiredParameters.any (fun k => ! truthyOpt (storeGuest st k))
        || truthyOpt (lookupQ q resetParam)) = true := by
      rcases h with h | h | h <;>
        simp [guestSpaceRequiredParameters, storeGuest, h]
    rw [if_pos hc]

/-- C4 witness: the amended gate claim at a complete preview-mode store and
the empty query. -/
theorem clientGate_decision_witness :
    ClientGate.decide wGateQuery wGateStore =
      { preview := true, xray := true,
        client := some
          { url := "https://graphql.contentful.com/content/v1/spaces/sp/",
            contentType := "application/json",
            authorization := "Bearer pt" } } :=
  (clientGate_decision wGateQuery wGateStore "sp" "dt" "contentful.com").1
    (by decide) (by decide) (by decide) (by decide) (by decide) (by decide)

/-- C5: for a query without a truthy reset signal, an editorial parameter
present with value "true" sets the corresponding store field to true, with
value "false" sets it to false, and with any other literal leaves it
unchanged, with no error. -/
theorem editorial_coercion (q : Query) (st : ContentfulUtilityStore) (k v : String)
    (hk : k = "preview" ∨ k = "xray")
    (hr : truthyOpt (lookupQ q resetParam) = false)
    (hv : lookupQ q k = some v) :
    (v = "true" → editorialField (reconcile q st) k = true) ∧
    (v = "false" → editorialField (reconcile q st) k = false) ∧
    (¬ v = "true" → ¬ v = "false" → editorialField (reconcile q st) k = editorialField st k) := by
  have hnd := filterQuery_nodupKeys q
  rcases hk with hk | hk <;> subst hk
  · have hlk : lookupL (filterQuery q) "preview" = some v := by
      rw [lookupL_filterQuery q _ (by decide)]; exact hv
    have hchar : (reconcile q st).preview = edApply st.preview v := by
      rw [reconcile_noReset_preview q st hr, foldl_edStep_char _ _ hnd, hlk]
      rfl
    refine ⟨?_, ?_, ?_⟩
    · intro hvt
      simp [editorialField, hchar, edApply, hvt]
    · intro hvf
      simp [editorialField, hchar, edApply, hvf]
    · intro hvt hvf
      simp [editorialField, hchar, edApply, hvt, hvf]
  · have hlk : lookupL (filterQuery q) "xray" = some v := by
      rw [lookupL_filterQuery q _ (by decide)]; exact hv
    have hchar : (reconcile q st).xray = edApply st.xray v := by
      rw [reconcile_noReset_xray q st hr, foldl_edStep_char _ _ hnd, hlk]
      rfl
    refine ⟨?_, ?_, ?_⟩
    · intro hvt
      simp [editorialField, hchar, edApply, hvt]
    · intro hvf
      simp [editorialField, hchar, edApply, hvf]
    · intro hvt hvf
      simp [editorialField, hchar, edApply, hvt, hvf]

/-- C5 witness: the editorial coercion claim at the concrete query
preview=true over the seeded store. -/
theorem editorial_coercion_witness :
    editorialField (reconcile wEdQuery initialStore) "preview" = true :=
  (editorial_coercion wEdQuery initialStore "preview" "true" (Or.inl rfl)
    (by decide) (by decide)).1 rfl

/-- C6: starting from the seeded defaults and applying any sequence of
reconciliation passes, the domain field always has a defined value (the
preview and xray fields are total booleans of the store record, so they are
defined by construction). -/
theorem domain_always_defined (qs : List Query) :
    ((qs.foldl (fun s q => reconcile q s) initialStore).domain).isSome = true := by
  have hpre : ∀ (l : List Query) (s : ContentfulUtilityStore),
      (l.foldl (fun s q => reconcile q s) s).domain = s.domain := by
    intro l
    induction l with
    | nil => intro s; rfl
    | cons a t ih =>
      intro s
      rw [List.foldl_cons, ih, reconcile_domain]
  rw [hpre]
  rfl

/-- C7: applying the reconciliation pass twice in succession with the same
query yields exactly the same store state as applying it once. -/
theorem reconcile_idempotent (q : Query) (s : ContentfulUtilityStore) :
    reconcile q (reconcile q s) = reconcile q s := by
  by_cases h : truthyOpt (lookupQ q resetParam) = true
  · rw [reconcile_reset q s h, reconcile_reset q _ h]
  · have hb : truthyOpt (lookupQ q resetParam) = false := by
      revert h
      cases truthyOpt (lookupQ q resetParam) <;> simp
    apply store_ext
    · have h1 := reconcile_noReset_xray q s hb
      have h2 := reconcile_noReset_xray q (reconcile q s) hb
      rw [h2, h1]
      exact (constOrId_foldl _ _ (fun e _ => edStep_constOrId "xray" e)).apply_apply s.xray
    · have h1 := reconcile_noReset_preview q s hb
      have h2 := reconcile_noReset_preview q (reconcile q s) hb
      rw [h2, h1]
      exact (constOrId_foldl _ _ (fun e _ => edStep_constOrId "preview" e)).apply_apply s.preview
    · rw [reconcile_domain, reconcile_domain]
    · have h1 := reconcile_noReset_delivery_token q s hb
      have h2 := reconcile_noReset_delivery_token q (reconcile q s) hb
      rw [h2, h1]
      exact (constOrId_foldl _ _
        (fun e _ => guestStep_constOrId "delivery_token" q (filterQuery q) e)).apply_apply
        s.delivery_token
    · have h1 := reconcile_noReset_preview_token q s hb
      have h2 := reconcile_noReset_preview_token q (reconcile q s) hb
      rw [h2, h1]
      exact (constOrId_foldl _ _
        (fun e _ => guestStep_constOrId "preview_token" q (filterQuery q) e)).apply_apply
        s.preview_token
    · have h1 := reconcile_noReset_space_id q s hb
      have h2 := reconcile_noReset_space_id q (reconcile q s) hb
      rw [h2, h1]
      exact (constOrId_foldl _ _
        (fun e _ => guestStep_constOrId "space_id" q (filterQuery q) e)).apply_apply
        s.space_id

/-- C8: a reconciliation pass never writes outside the recognized store
keys — domain, the only store field outside the recognized set, is always
preserved — and query entries whose key is neither a recognized parameter
name nor the reset signal are never read or written: dropping them all
leaves the result of the pass unchanged. -/
theorem reconcile_frame (q : Query) (st : ContentfulUtilityStore) :
    (reconcile q st).domain = st.domain ∧
    reconcile (restrictQuery q) st = reconcile q st := by
  refine ⟨reconcile_domain q st, ?_⟩
  have hreset : lookupQ (restrictQuery q) resetParam = lookupQ q resetParam := by
    apply lookupL_filter
    intro e he
    rw [he]
    decide
  have hkeys : ∀ k : String, allParams.contains k = true →
      lookupQ (restrictQuery q) k = lookupQ q k := by
    intro k hk
    apply lookupL_filter
    intro e he
    rw [he]
    simp only [recognizedOrReset, Bool.or_eq_true]
    exact Or.inl hk
  have hfq : filterQuery (restrictQuery q) = filterQuery q := by
    show (q.entries.filter (fun e => recognizedOrReset e.1)).filter
        (fun e => allParams.contains e.1) = _
    rw [List.filter_filter]
    apply List.filter_congr
    intro e _
    cases hc : allParams.contains e.1 with
    | true =>
      simp [recognizedOrReset, hc]
      exact Or.inl (by simpa using hc)
    | false => simp [hc]
  unfold reconcile
  rw [hreset, hfq]
  by_cases hr : truthyOpt (lookupQ q resetParam) = true
  · rw [if_pos hr, if_pos hr]
  · rw [if_neg hr, if_neg hr]
    apply foldl_congr_mem
    intro e he s
    have hk : allParams.contains e.1 = true := (List.mem_filter.mp he).2
    unfold applyEntry
    rw [hreset, hkeys e.1 hk]

/-- C9: a required-guest parameter supplied with the empty string is
treated as absent — on a pass without a truthy reset signal in which
space_id or delivery_token maps to the empty string, none of the three
guest-space store fields is written. -/
theorem empty_required_value_skips_guest_writes (q : Query)
    (st : ContentfulUtilityStore)
    (hr : truthyOpt (lookupQ q resetParam) = false)
    (h : lookupQ q "space_id" = some "" ∨ lookupQ q "delivery_token" = some "") :
    (reconcile q st).space_id = st.space_id ∧
    (reconcile q st).delivery_token = st.delivery_token ∧
    (reconcile q st).preview_token = st.preview_token := by
  have hmiss : (guestSpaceRequiredParameters.any
      (fun rk => ! truthyOpt (lookupL (filterQuery q) rk))) = true := by
    rcases h with hs | hd
    · have hfs : lookupL (filterQuery q) "space_id" = some "" := by
        rw [lookupL_filterQuery q _ (by decide)]; exact hs
      simp [guestSpaceRequiredParameters, hfs, truthyOpt, truthy]
    · have hfd : lookupL (filterQuery q) "delivery_token" = some "" := by
        rw [lookupL_filterQuery q _ (by decide)]; exact hd
      simp [guestSpaceRequiredParameters, hfd, truthyOpt, truthy]
  refine ⟨?_, ?_, ?_⟩
  · rw [reconcile_noReset_space_id q st hr]
    exact foldl_id _ _ (fun e _ o => guestStep_id_of_reqMissing _ q _ o e hmiss) _
  · rw [reconcile_noReset_delivery_token q st hr]
    exact foldl_id _ _ (fun e _ o => guestStep_id_of_reqMissing _ q _ o e hmiss) _
  · rw [reconcile_noReset_preview_token q st hr]
    exact foldl_id _ _ (fun e _ o => guestStep_id_of_reqMissing _ q _ o e hmiss) _

/-- C9 witness: the empty-required-value claim at a query carrying an empty
space_id together with nonempty delivery_token and preview_token, over a
fully populated store. -/
theorem empty_required_value_witness :
    (reconcile wEmptyReqQuery wEmptyReqStore).space_id = wEmptyReqStore.space_id ∧
    (reconcile wEmptyReqQuery wEmptyReqStore).delivery_token = wEmptyReqStore.delivery_token ∧
    (reconcile wEmptyReqQuery wEmptyReqStore).preview_token = wEmptyReqStore.preview_token :=
  empty_required_value_skips_guest_writes wEmptyReqQuery wEmptyReqStore
    (by decide) (Or.inl (by decide))

/-- C10: on each store field, a reconciliation pass over a fixed query
either leaves the field untouched for every prior state or drives it to the
same value for every prior state — the writes performed depend only on the
query, never on the prior store contents. -/
theorem reconcile_state_independent (q : Query) (s₁ s₂ : ContentfulUtilityStore) :
    (((reconcile q s₁).xray = s₁.xray ∧ (reconcile q s₂).xray = s₂.xray) ∨
      (reconcile q s₁).xray = (reconcile q s₂).xray) ∧
    (((reconcile q s₁).preview = s₁.preview ∧ (reconcile q s₂).preview = s₂.preview) ∨
      (reconcile q s₁).preview = (reconcile q s₂).preview) ∧
    (((reconcile q s₁).domain = s₁.domain ∧ (reconcile q s₂).domain = s₂.domain) ∨
      (reconcile q s₁).domain = (reconcile q s₂).domain) ∧
    (((reconcile q s₁).delivery_token = s₁.delivery_token ∧
        (reconcile q s₂).delivery_token = s₂.delivery_token) ∨
      (reconcile q s₁).delivery_token = (reconcile q s₂).delivery_token) ∧
    (((reconcile q s₁).preview_token = s₁.preview_token ∧
        (reconcile q s₂).preview_token = s₂.preview_token) ∨
      (reconcile q s₁).preview_token = (reconcile q s₂).preview_token) ∧
    (((reconcile q s₁).space_id = s₁.space_id ∧ (reconcile q s₂).space_id = s₂.space_id) ∨
      (reconcile q s₁).space_id = (reconcile q s₂).space_id) := by
  by_cases h : truthyOpt (lookupQ q resetParam) = true
  · rw [reconcile_reset q s₁ h, reconcile_reset q s₂ h]
    exact ⟨Or.inl ⟨rfl, rfl⟩, Or.inl ⟨rfl, rfl⟩, Or.inl ⟨rfl, rfl⟩,
      Or.inr rfl, Or.inr rfl, Or.inr rfl⟩
  · have hb : truthyOpt (lookupQ q resetParam) = false := by
      revert h
      cases truthyOpt (lookupQ q resetParam) <;> simp
    refine ⟨?_, ?_, Or.inl ⟨reconcile_domain q s₁, reconcile_domain q s₂⟩, ?_, ?_, ?_⟩
    · rcases constOrId_foldl (edStep "xray") (filterQuery q)
        (fun e _ => edStep_constOrId "xray" e) with hc | hi
      · refine Or.inr ?_
        rw [reconcile_noReset_xray q s₁ hb, reconcile_noReset_xray q s₂ hb]
        exact hc _ _
      · refine Or.inl ⟨?_, ?_⟩ <;> rw [reconcile_noReset_xray _ _ hb] <;> exact hi _
    · rcases constOrId_foldl (edStep "preview") (filterQuery q)
        (fun e _ => edStep_constOrId "preview" e) with hc | hi
      · refine Or.inr ?_
        rw [reconcile_noReset_preview q s₁ hb, reconcile_noReset_preview q s₂ hb]
        exact hc _ _
      · refine Or.inl ⟨?_, ?_⟩ <;> rw [reconcile_noReset_preview _ _ hb] <;> exact hi _
    · rcases constOrId_foldl (guestStep "delivery_token" q (filterQuery q)) (filterQuery q)
        (fun e _ => guestStep_constOrId "delivery_token" q (filterQuery q) e) with hc | hi
      · refine Or.inr ?_
        rw [reconcile_noReset_delivery_token q s₁ hb, reconcile_noReset_delivery_token q s₂ hb]
        exact hc _ _
      · refine Or.inl ⟨?_, ?_⟩ <;> rw [reconcile_noReset_delivery_token _ _ hb] <;> exact hi _
    · rcases constOrId_foldl (guestStep "preview_token" q (filterQuery q)) (filterQuery q)
        (fun e _ => guestStep_constOrId "preview_token" q (filterQuery q) e) with hc | hi
      · refine Or.inr ?_
        rw [reconcile_noReset_preview_token q s₁ hb, reconcile_noReset_preview_token q s₂ hb]
        exact hc _ _
      · refine Or.inl ⟨?_, ?_⟩ <;> rw [reconcile_noReset_preview_token _ _ hb] <;> exact hi _
    · rcases constOrId_foldl (guestStep "space_id" q (filterQuery q)) (filterQuery q)
        (fun e _ => guestStep_constOrId "space_id" q (filterQuery q) e) with hc | hi
      · refine Or.inr ?_
        rw [reconcile_noReset_space_id q s₁ hb, reconcile_noReset_space_id q s₂ hb]
        exact hc _ _
      · refine Or.inl ⟨?_, ?_⟩ <;> rw [reconcile_noReset_space_id _ _ hb] <;> exact hi _
